import Mathlib

/-!
Verification of the poidh-miniapp bounty client against its specification.

The development shallowly embeds the client-side logic of the repository:
the bounty state projector (`useBounties` / `useBountiesData` hooks), the
lifecycle / action gate predicates of the bounty and claim detail pages,
the IPFS metadata resolution helpers (`src/lib/ipfs.ts`) and the
`/api/ipfs/[cid]` read-through cache route.  External JavaScript builtins
(`fetch`, `encodeURIComponent`, `parseFloat`, `String.prototype.replace`,
regular-expression matching) are modelled as explicit Lean functions; the
network is modelled as an environment mapping a request URL to an outcome.
The live (non-demo) code paths are embedded; the `DEMO_MODE` fixture
branches are configuration described by the spec as a mock data source.
-/

namespace Poidh

/-- Blockchain addresses are hex strings in the client (`viem` `Address`). -/
abbrev Address := String

/-- Opaque JSON document fetched from the content-addressed store. -/
abbrev Doc := String

/-- TS numeric enum `BountyState` from `src/lib/contracts.ts`. -/
abbrev BountyState := Nat

/-- Enum member `BountyState.OPEN = 0`. -/
def BountyState.OPEN : BountyState := 0

/-- Enum member `BountyState.VOTING = 1`. -/
def BountyState.VOTING : BountyState := 1

/-- Enum member `BountyState.CLOSED = 2`. -/
def BountyState.CLOSED : BountyState := 2

/-- Enum member `BountyState.CANCELLED = 3`. -/
def BountyState.CANCELLED : BountyState := 3

/-- The `BountyData` record produced by the projector hooks
(`useBounties.ts`).  `metadata` is the off-chain JSON document, `none`
standing for the TS `null`/absent metadata. -/
structure BountyData where
  address : Address
  issuer : Address
  metadataURI : String
  state : BountyState
  joinable : Bool
  totalStaked : Nat
  claimsCount : Nat
  metadata : Option Doc := none
deriving Repr, DecidableEq

/-- The six per-bounty contract reads issued by `useBountiesData`
(`issuer`, `metadataURI`, `state`, `joinable`, `totalStaked`,
`getClaimsCount`); `none` models a failed read (`result === undefined`). -/
structure RawBountyReads where
  issuer : Option Address
  metadataURI : Option String
  state : Option Nat
  joinable : Option Bool
  totalStaked : Option Nat
  claimsCount : Option Nat
deriving Repr, DecidableEq

/-- Result parsing of `useBountiesData` (useBounties.ts):  a bounty whose
`issuer` read failed is skipped; otherwise the remaining fields default to
`""`, `0`, `false`, `0n`, `0n` via `??`. -/
def parseBountyReads (addresses : List Address) (reads : Address → RawBountyReads) :
    List BountyData :=
  addresses.filterMap (fun a =>
    match (reads a).issuer with
    | some iss =>
        some { address := a
               issuer := iss
               metadataURI := ((reads a).metadataURI).getD ""
               state := ((reads a).state).getD 0
               joinable := ((reads a).joinable).getD false
               totalStaked := ((reads a).totalStaked).getD 0
               claimsCount := ((reads a).claimsCount).getD 0 }
    | none => none)

/-- State of the create-bounty form on `src/app/create/page.tsx`. -/
structure CreateForm where
  title : String
  description : String
  amount : String
  joinable : Bool
  error : Option String
deriving Repr, DecidableEq

/-- Model of the JavaScript `trim()` builtin: drop leading and trailing
whitespace. -/
def jsTrim (s : String) : String :=
  String.mk (((s.data.dropWhile Char.isWhitespace).reverse.dropWhile
    Char.isWhitespace).reverse)

/-- Decimal digits to a natural number. -/
def digitsToNat (ds : List Char) : Nat :=
  ds.foldl (fun acc c => acc * 10 + (c.toNat - 48)) 0

/-- Model of the JavaScript `parseFloat` builtin on the decimal literals
accepted by the amount input: optional sign, digits, optional fractional
part; trailing garbage is ignored and `none` stands for `NaN`. -/
def jsParseFloat (s : String) : Option ℚ :=
  let t := (jsTrim s).data
  let signSplit : Bool × List Char :=
    match t with
    | c :: cs => if c = '-' then (true, cs) else if c = '+' then (false, cs) else (false, t)
    | [] => (false, t)
  let rest := signSplit.2
  let intPart := rest.takeWhile Char.isDigit
  let afterInt := rest.drop intPart.length
  let fracPart :=
    match afterInt with
    | c :: cs => if c = '.' then cs.takeWhile Char.isDigit else []
    | [] => []
  if intPart = [] ∧ fracPart = [] then none
  else
    let n : ℚ := (digitsToNat (intPart ++ fracPart) : ℚ) / ((10 : ℚ) ^ fracPart.length)
    some (if signSplit.1 then -n else n)

/-- The amount validation of `handleSubmit`:
`!amount || parseFloat(amount) <= 0`. -/
def amountInvalid (amount : String) : Bool :=
  amount == "" ||
    (match jsParseFloat amount with
     | some q => decide (q ≤ 0)
     | none => false)

/-- Network effects a create-bounty submission can issue. -/
inductive NetworkCall where
  | ipfsUpload (title description : String)
  | contractWrite (functionName : String)
deriving Repr, DecidableEq

/-- Model of `handleSubmit` on the create page: the synchronous validation
prefix is embedded verbatim; the post-validation path (wallet resolution,
metadata upload, `createBounty` write) is condensed into the environment
parameters `wallet?` (connected or connectable address) and
`uploadResult` (cid returned by `uploadToIPFS`, `none` for failure).
The returned list holds the network calls issued. -/
def handleSubmit (form : CreateForm) (wallet? : Option Address)
    (uploadResult : Option String) : CreateForm × List NetworkCall :=
  if (jsTrim form.title) == "" || (jsTrim form.description) == "" then
    ({ form with error := some "Title and description are required" }, [])
  else if amountInvalid form.amount then
    ({ form with error := some "Please enter a valid amount" }, [])
  else
    match wallet? with
    | none => ({ form with error := some "Wallet connector not available" }, [])
    | some _ =>
        match uploadResult with
        | some _ =>
            ({ form with error := none },
             [NetworkCall.ipfsUpload (jsTrim form.title) (jsTrim form.description),
              NetworkCall.contractWrite "createBounty"])
        | none =>
            ({ form with error := some "Failed to upload to IPFS" },
             [NetworkCall.ipfsUpload (jsTrim form.title) (jsTrim form.description)])

/-! ### IPFS metadata resolution (`src/lib/ipfs.ts`) -/

/-- Outcome of one network `fetch` of a URL: a thrown exception, a
response with `ok === false`, or an `ok` response carrying a JSON body.
An environment `String → FetchOutcome` assigns an outcome to every
request URL; content addressing makes the assignment deterministic. -/
inductive FetchOutcome where
  | threw
  | notOk (status : Nat)
  | ok (body : Doc)
deriving Repr, DecidableEq

/-- The `response.ok ? await response.json() : null` / `catch → null`
pattern used by every fetch site. -/
def directResult : FetchOutcome → Option Doc
  | FetchOutcome.ok d => some d
  | _ => none

/-- Consume the literal `pat` from the front of `s`, returning the rest. -/
def stripLit? : List Char → List Char → Option (List Char)
  | [], s => some s
  | _ :: _, [] => none
  | p :: ps, c :: cs => if p = c then stripLit? ps cs else none

/-- Model of JavaScript `uri.startsWith(pre)`. -/
def jsStartsWith (s pre : String) : Bool :=
  (stripLit? pre.data s.data).isSome

/-- First-occurrence scan behind JavaScript
`s.replace(pat, "")` (string pattern: only the first occurrence is
replaced; the replacement here is always the empty string). -/
def jsReplaceFirstList (pat : List Char) : List Char → List Char
  | [] => []
  | c :: cs =>
      match stripLit? pat (c :: cs) with
      | some rest => rest
      | none => c :: jsReplaceFirstList pat cs

/-- Model of JavaScript `s.replace(pat, "")`. -/
def jsReplaceFirst (s pat : String) : String :=
  String.mk (jsReplaceFirstList pat.data s.data)

/-- Position-by-position scan of the regular expression
`/\/ipfs\/([a-zA-Z0-9]+)/`: at each position, the literal `/ipfs/`
followed by a maximal nonempty run of ASCII alphanumerics matches and
the run is the captured group. -/
def jsMatchIpfsCidList : List Char → Option (List Char)
  | [] => none
  | c :: cs =>
      match stripLit? ("/ipfs/".data) (c :: cs) with
      | some rest =>
          let run := rest.takeWhile Char.isAlphanum
          if run = [] then jsMatchIpfsCidList cs else some run
      | none => jsMatchIpfsCidList cs

/-- Model of `uri.match(/\/ipfs\/([a-zA-Z0-9]+)/)` returning the captured
group. -/
def jsMatchIpfsCid (s : String) : Option String :=
  (jsMatchIpfsCidList s.data).map String.mk

/-- Hex digit for `encodeURIComponent` percent escapes. -/
def hexDigitChar (n : Nat) : Char :=
  if n < 10 then Char.ofNat (48 + n) else Char.ofNat (55 + n)

/-- Percent escape of one byte value. -/
def percentByte (n : Nat) : List Char :=
  ['%', hexDigitChar (n / 16 % 16), hexDigitChar (n % 16)]

/-- Characters `encodeURIComponent` leaves unescaped
(`A-Z a-z 0-9 - _ . ! ~ * ' ( )`). -/
def uriUnreserved (ch : Char) : Bool :=
  ch.isAlphanum || ['-', '_', '.', '!', '~', '*', '(', ')'].contains ch ||
    ch = Char.ofNat 39

/-- Model of the JavaScript `encodeURIComponent` builtin (exact on the
ASCII strings that occur as CIDs; escapes are per code point here). -/
def encodeURIComponent (s : String) : String :=
  String.mk (s.data.foldr
    (fun ch acc => (if uriUnreserved ch then [ch] else percentByte ch.toNat) ++ acc) [])

/-- The API-route lookup issued at the end of `fetchFromIPFS`:
`fetch(`/api/ipfs/${encodeURIComponent(cid)}`)`, paired with the request
URL it issues. -/
def apiFetch (env : String → FetchOutcome) (cid : String) : List String × Option Doc :=
  let url := "/api/ipfs/" ++ encodeURIComponent cid
  ([url], directResult (env url))

/-- `fetchFromIPFS` from `src/lib/ipfs.ts`, instrumented with the list of
request URLs issued: empty URI short-circuits to `null`; an `ipfs://` URI
is stripped by first-occurrence replace; an `https://` URL either yields
a CID through the `/ipfs/` regex or is fetched directly; any other string
is used as the CID itself.  Exceptions and non-`ok` responses become
`null` through `directResult`. -/
def fetchFromIPFSRun (env : String → FetchOutcome) (uri : String) :
    List String × Option Doc :=
  if uri = "" then ([], none)
  else if jsStartsWith uri "ipfs://" then
    apiFetch env (jsReplaceFirst uri "ipfs://")
  else if jsStartsWith uri "https://" then
    match jsMatchIpfsCid uri with
    | some cid => apiFetch env cid
    | none => ([uri], directResult (env uri))
  else apiFetch env uri

/-- Result of `fetchFromIPFS` (the resolved document or `null`). -/
def fetchFromIPFS (env : String → FetchOutcome) (uri : String) : Option Doc :=
  (fetchFromIPFSRun env uri).2

/-- `toIPFSUri` from `src/lib/ipfs.ts`. -/
def toIPFSUri (cid : String) : String :=
  if jsStartsWith cid "ipfs://" then cid else "ipfs://" ++ cid

/-! ### JavaScript `Map` -/

/-- Association-list model of a JavaScript `Map` with string keys. -/
abbrev JsMap (α : Type) := List (String × α)

/-- `map.get(k)`: the value bound to `k` (keys are unique), else
`undefined`. -/
def mapGet {α : Type} : JsMap α → String → Option α
  | [], _ => none
  | e :: es, k => if e.1 == k then some e.2 else mapGet es k

/-- `map.set(k, v)`: replaces the binding for `k` if present, otherwise
appends it. -/
def mapSet {α : Type} : JsMap α → String → α → JsMap α
  | [], k, v => [(k, v)]
  | e :: es, k, v => if e.1 == k then (k, v) :: es else e :: mapSet es k v

/-- Reading back the key just set. -/
theorem mapGet_mapSet_self {α : Type} (m : JsMap α) (k : String) (v : α) :
    mapGet (mapSet m k v) k = some v := by
  induction m with
  | nil => simp [mapSet, mapGet]
  | cons e es ih =>
      by_cases he : (e.1 == k) = true
      · simp [mapSet, mapGet, he]
      · simp [mapSet, mapGet, he, ih]

/-- Setting one key leaves every other key's binding unchanged. -/
theorem mapGet_mapSet_other {α : Type} (m : JsMap α) (k k' : String) (v : α)
    (h : k' ≠ k) : mapGet (mapSet m k v) k' = mapGet m k' := by
  induction m with
  | nil => simp [mapSet, mapGet, Ne.symm h]
  | cons e es ih =>
      by_cases he : (e.1 == k) = true
      · have he' : e.1 = k := by simpa using he
        simp [mapSet, mapGet, he, he', Ne.symm h]
      · simp [mapSet, mapGet, he, ih]

/-! ### Metadata fan-out of `useBounties` / `useClaims` -/

/-- One `ClaimData` record from `useClaims.ts`. -/
structure ClaimData where
  id : Nat
  claimant : Address
  name : String
  proofURI : String
  proof : Option Doc := none
deriving Repr, DecidableEq

/-- Accumulating pass of the `useBounties` metadata `queryFn`: for each
bounty with a truthy `metadataURI`, `fetchFromIPFS` is invoked and the
result stored under the URI.  The `Promise.all` fan-out is order
independent because the stored value is a function of the key alone;
last-write-wins of the shared `Map` is therefore modelled by a fold. -/
def buildMetadataMapAux (env : String → FetchOutcome) :
    List BountyData → JsMap (Option Doc) → JsMap (Option Doc)
  | [], acc => acc
  | b :: bs, acc =>
      buildMetadataMapAux env bs
        (if b.metadataURI ≠ "" then
           mapSet acc b.metadataURI (fetchFromIPFS env b.metadataURI)
         else acc)

/-- The `metadataMap` produced by the `useBounties` metadata `queryFn`. -/
def buildMetadataMap (env : String → FetchOutcome) (bounties : List BountyData) :
    JsMap (Option Doc) :=
  buildMetadataMapAux env bounties []

/-- The `fetchFromIPFS` invocations issued by the `useBounties` metadata
`queryFn`: one call per bounty whose `metadataURI` is truthy. -/
def metadataFetchCalls (bounties : List BountyData) : List String :=
  (bounties.filter (fun b => b.metadataURI != "")).map (fun b => b.metadataURI)

/-- The `fetchFromIPFS` invocations issued by the `useClaims` proof
`queryFn`: one call per claim whose `proofURI` is truthy. -/
def proofFetchCalls (claims : List ClaimData) : List String :=
  (claims.filter (fun c => c.proofURI != "")).map (fun c => c.proofURI)

/-- The `bountiesWithMetadata` merge at the end of `useBounties`:
`metadata: metadataMap?.get(bounty.metadataURI) ?? null`. -/
def mergeBountyMetadata (env : String → FetchOutcome) (bounties : List BountyData) :
    List BountyData :=
  let metadataMap := buildMetadataMap env bounties
  bounties.map (fun b => { b with metadata := (mapGet metadataMap b.metadataURI).getD none })

/-! ### API route `/api/ipfs/[cid]` (read-through gateway cache) -/

/-- `IPFS_GATEWAYS` from the API route. -/
def IPFS_GATEWAYS : List String :=
  ["https://gateway.pinata.cloud/ipfs",
   "https://ipfs.io/ipfs",
   "https://cloudflare-ipfs.com/ipfs"]

/-- `CACHE_TTL = 5 * 60 * 1000` milliseconds. -/
def CACHE_TTL : Nat := 5 * 60 * 1000

/-- A cache entry `{ data, timestamp }`. -/
structure CacheEntry where
  data : Doc
  timestamp : Nat
deriving Repr, DecidableEq

/-- The module-level `cache` map of the API route. -/
abbrev Cache := JsMap CacheEntry

/-- An upstream gateway request with its `AbortSignal.timeout` bound. -/
structure GatewayRequest where
  url : String
  timeoutMs : Nat
deriving Repr, DecidableEq

/-- A `NextResponse.json` result: body on 200, or an error message with
its HTTP status. -/
inductive GetResponse where
  | ok (body : Doc)
  | err (message : String) (status : Nat)
deriving Repr, DecidableEq

/-- The gateway fallback loop of the route: gateways are tried in list
order with a 10-second timeout each; the first `ok` response returns its
JSON; a thrown fetch or a non-`ok` response falls through to the next
gateway.  Returns the requests issued and the first successful body. -/
def gatewayLoopGo (env : String → FetchOutcome) (cid : String) :
    List String → List GatewayRequest × Option Doc
  | [] => ([], none)
  | g :: gs =>
      let req : GatewayRequest := { url := g ++ "/" ++ cid, timeoutMs := 10000 }
      match env (g ++ "/" ++ cid) with
      | FetchOutcome.ok d => ([req], some d)
      | _ =>
          let rest := gatewayLoopGo env cid gs
          (req :: rest.1, rest.2)

/-- The gateway loop over `IPFS_GATEWAYS`. -/
def gatewayLoop (env : String → FetchOutcome) (cid : String) :
    List GatewayRequest × Option Doc :=
  gatewayLoopGo env cid IPFS_GATEWAYS

/-- The fetch-and-cache path of the route `GET` handler: a successful
loop caches `{ data, timestamp: Date.now() }` and returns the JSON;
exhaustion of all gateways returns the 502 error body. -/
def ipfsGETFetch (env : String → FetchOutcome) (cache : Cache) (now : Nat)
    (cid : String) : List GatewayRequest × GetResponse × Cache :=
  match gatewayLoop env cid with
  | (reqs, some d) =>
      (reqs, GetResponse.ok d, mapSet cache cid { data := d, timestamp := now })
  | (reqs, none) =>
      (reqs, GetResponse.err "Failed to fetch from IPFS" 502, cache)

/-- The route `GET` handler: 400 on a missing cid; a cache entry younger
than `CACHE_TTL` is served without contacting any gateway; otherwise the
gateway loop runs.  `now` is `Date.now()` in milliseconds. -/
def ipfsGET (env : String → FetchOutcome) (cache : Cache) (now : Nat)
    (cid : String) : List GatewayRequest × GetResponse × Cache :=
  if cid = "" then ([], GetResponse.err "CID is required" 400, cache)
  else
    match mapGet cache cid with
    | some e =>
        if now - e.timestamp < CACHE_TTL then ([], GetResponse.ok e.data, cache)
        else ipfsGETFetch env cache now cid
    | none => ipfsGETFetch env cache now cid

/-- Consistency of the route cache with the (content-addressed, hence
deterministic) upstream environment: every cached document is what the
gateway loop resolves for its key. -/
def cacheConsistent (env : String → FetchOutcome) (cache : Cache) : Prop :=
  ∀ cid e, mapGet cache cid = some e → (gatewayLoop env cid).2 = some e.data

/-! ### Vote state and action gate (bounty / claim detail pages) -/

/-- The tuple returned by the `currentVote` contract read
(`useVoteState` / `useBounty`). -/
structure VoteState where
  claimId : Nat
  yes : Nat
  no : Nat
  deadline : Nat
  votingRound : Nat
deriving Repr, DecidableEq

/-- `votingDeadline = voteState?.deadline ? Number(voteState.deadline) * 1000
: null` — a zero deadline is falsy and yields `null`. -/
def votingDeadline (voteState? : Option VoteState) : Option Nat :=
  match voteState? with
  | some v => if v.deadline ≠ 0 then some (v.deadline * 1000) else none
  | none => none

/-- `isVotingExpired = votingDeadline ? Date.now() > votingDeadline : false`. -/
def isVotingExpired (now : Nat) (voteState? : Option VoteState) : Bool :=
  match votingDeadline voteState? with
  | some d => now > d
  | none => false

/-- `totalVoted = voteState ? voteState.yes + voteState.no : 0n`. -/
def totalVoted (voteState? : Option VoteState) : Nat :=
  match voteState? with
  | some v => v.yes + v.no
  | none => 0

/-- `allVotesCast = bounty && totalVoted >= bounty.totalStaked`. -/
def allVotesCast (bounty? : Option BountyData) (voteState? : Option VoteState) : Bool :=
  match bounty? with
  | some b => totalVoted voteState? ≥ b.totalStaked
  | none => false

/-- `canResolveVote = isVotingExpired || allVotesCast` (bounty detail
page). -/
def canResolveVote (now : Nat) (bounty? : Option BountyData)
    (voteState? : Option VoteState) : Bool :=
  isVotingExpired now voteState? || allVotesCast bounty? voteState?

/-- The bounty detail page renders its voting action area, and hence the
Resolve Vote button, only inside the `bounty.state === BountyState.VOTING`
block. -/
def bountyPageResolveShown (now : Nat) (b : BountyData)
    (voteState? : Option VoteState) : Bool :=
  b.state == BountyState.VOTING && canResolveVote now (some b) voteState?

/-- `isVotingOnThis = bounty?.state === BountyState.VOTING &&
votingClaimId === claimId` (claim detail page). -/
def isVotingOnThis (bounty? : Option BountyData) (voteState? : Option VoteState)
    (claimId : Nat) : Bool :=
  match bounty?, voteState? with
  | some b, some v => b.state == BountyState.VOTING && v.claimId == claimId
  | _, _ => false

/-- The small Resolve Vote button in the claim detail page's voting card:
rendered when `isVotingOnThis && voteState` holds and `isVotingExpired`. -/
def claimPageResolveShown (now : Nat) (bounty? : Option BountyData)
    (voteState? : Option VoteState) (claimId : Nat) : Bool :=
  isVotingOnThis bounty? voteState? claimId && isVotingExpired now voteState?

/-- Model of the JavaScript `toLowerCase()` builtin (character-wise
lower-casing; exact on the ASCII hex addresses it is applied to). -/
def jsToLowerCase (s : String) : String :=
  String.mk (s.data.map Char.toLower)

/-- `isIssuer = bounty && address && bounty.issuer.toLowerCase() ===
address.toLowerCase()`. -/
def isIssuer (bounty? : Option BountyData) (address? : Option Address) : Bool :=
  match bounty?, address? with
  | some b, some a => jsToLowerCase b.issuer == jsToLowerCase a
  | _, _ => false

/-- `hasStake = userStake && userStake > 0n` — an absent or zero stake is
falsy. -/
def hasStake (userStake? : Option Nat) : Bool :=
  match userStake? with
  | some s => decide (s > 0)
  | none => false

/-- `canStartVote = bounty?.state === BountyState.OPEN && (isIssuer ||
hasStake)` (claim detail page). -/
def canStartVote (bounty? : Option BountyData) (address? : Option Address)
    (userStake? : Option Nat) : Bool :=
  (match bounty? with
   | some b => b.state == BountyState.OPEN
   | none => false) &&
    (isIssuer bounty? address? || hasStake userStake?)

/-- Outcome of an action handler: a submitted chain write, a local
precondition rejection, or a wallet failure. -/
inductive HandlerOutcome where
  | chainWrite (functionName : String) (args : List Nat)
  | precondError (msg : String)
  | walletError (msg : String)
deriving Repr, DecidableEq

/-- Whether an outcome is a local precondition rejection. -/
def HandlerOutcome.isPrecondError : HandlerOutcome → Bool
  | HandlerOutcome.precondError _ => true
  | _ => false

/-- `handleStartVote` (claim detail page lines 169-193 and its twin on
the bounty detail page): after resolving a wallet address —
`connectResult?` models `connectAsync` when no address is connected — it
submits the `initiateVote(claimId)` write unconditionally; no standing or
state check is performed in the handler. -/
def handleStartVote (address? : Option Address) (connectResult? : Option Address)
    (claimId : Nat) : HandlerOutcome :=
  match address? with
  | some _ => HandlerOutcome.chainWrite "initiateVote" [claimId]
  | none =>
      match connectResult? with
      | some _ => HandlerOutcome.chainWrite "initiateVote" [claimId]
      | none => HandlerOutcome.walletError "Wallet not available"

/-- The claim detail page's fixed action area: the vote buttons branch
(`isVotingOnThis && !hasVoted && hasStake`) takes precedence; otherwise
the Select for Voting button is rendered exactly when
`bounty.state === BountyState.OPEN && isIssuer` and the bounty is
joinable (a non-joinable bounty shows Accept & Pay Out instead). -/
def selectForVotingShown (b : BountyData) (voteState? : Option VoteState)
    (claimId : Nat) (address? : Option Address) (userStake? : Option Nat)
    (hasVoted? : Option Bool) : Bool :=
  if isVotingOnThis (some b) voteState? claimId && !(hasVoted?.getD false) &&
      hasStake userStake? then
    false
  else
    b.state == BountyState.OPEN && isIssuer (some b) address? && b.joinable

/-- `useHasVoted` (live branch): reads `account_Round_HasVoted(user,
votingRound)`; the query is disabled — data `undefined` — unless the
bounty address, the user address and the round are all present. -/
def useHasVoted (chain : Address → Nat → Bool) (bountyAddress? : Option Address)
    (userAddress? : Option Address) (votingRound? : Option Nat) : Option Bool :=
  match bountyAddress?, userAddress?, votingRound? with
  | some _, some u, some r => some (chain u r)
  | _, _, _ => none

/-- The four shapes of the bounty detail page's voting action area. -/
inductive VotingAction where
  | resolveButton
  | votedDisplay
  | voteButtons
  | noAction
deriving Repr, DecidableEq

/-- The branch ladder of the voting action area (bounty detail page):
`canResolveVote ? Resolve : hasStake && hasVoted ? Voted : hasStake &&
!hasVoted ? Vote Yes/No : null`. -/
def votingActionArea (now : Nat) (b : BountyData) (voteState? : Option VoteState)
    (hasStakeB hasVotedB : Bool) : VotingAction :=
  if canResolveVote now (some b) voteState? then VotingAction.resolveButton
  else if hasStakeB && hasVotedB then VotingAction.votedDisplay
  else if hasStakeB && !hasVotedB then VotingAction.voteButtons
  else VotingAction.noAction

/-- The voting action area with its data dependencies composed in: the
area renders only in the `bounty.state === BountyState.VOTING` block, and
`hasVoted` is `useHasVoted` at the current round
(`voteState?.votingRound`), an `undefined` read being falsy. -/
def bountyPageVotingAction (chain : Address → Nat → Bool) (now : Nat)
    (b : BountyData) (voteState? : Option VoteState) (user? : Option Address)
    (userStake? : Option Nat) : VotingAction :=
  if b.state == BountyState.VOTING then
    votingActionArea now b voteState? (hasStake userStake?)
      ((useHasVoted chain (some b.address) user?
          (voteState?.map VoteState.votingRound)).getD false)
  else VotingAction.noAction

/-- The claim detail page's vote buttons:
`isVotingOnThis && !hasVoted && hasStake`. -/
def claimPageVoteButtonsShown (chain : Address → Nat → Bool) (b : BountyData)
    (voteState? : Option VoteState) (claimId : Nat) (user? : Option Address)
    (userStake? : Option Nat) : Bool :=
  isVotingOnThis (some b) voteState? claimId &&
    !((useHasVoted chain (some b.address) user?
        (voteState?.map VoteState.votingRound)).getD false) &&
    hasStake userStake?

/-! ### Theorems -/

/-- A voting action area whose has-voted flag is set never renders the
vote buttons. -/
theorem votingActionArea_ne_voteButtons_of_voted (now : Nat) (b : BountyData)
    (voteState? : Option VoteState) (hs : Bool) :
    votingActionArea now b voteState? hs true ≠ VotingAction.voteButtons := by
  unfold votingActionArea
  split_ifs with h1 h2 h3 <;> simp_all

/-- A voting action area for a stakeless caller never renders the vote
buttons. -/
theorem votingActionArea_ne_voteButtons_of_stakeless (now : Nat) (b : BountyData)
    (voteState? : Option VoteState) (hv : Bool) :
    votingActionArea now b voteState? false hv ≠ VotingAction.voteButtons := by
  unfold votingActionArea
  split_ifs with h1 h2 h3 <;> simp_all

/-- Claim C1: for a bounty in VOTING with a current vote round (any round
created by the protocol has a nonzero deadline), the resolve-vote action
is offered exactly when the deadline has passed or the yes-weight plus
no-weight has reached `totalStaked`; in particular `yes + no =
totalStaked` makes resolve eligible immediately, before the deadline; and
the claim detail page's secondary Resolve button is only ever shown when
the same gate holds. -/
theorem C1_resolveVote_gate (now : Nat) (b : BountyData) (v : VoteState)
    (hd : 0 < v.deadline) :
    (bountyPageResolveShown now b (some v) =
      ((b.state == BountyState.VOTING) &&
        (decide (now > v.deadline * 1000) || decide (v.yes + v.no ≥ b.totalStaked)))) ∧
    (v.yes + v.no = b.totalStaked → canResolveVote now (some b) (some v) = true) ∧
    (∀ claimId, claimPageResolveShown now (some b) (some v) claimId = true →
      canResolveVote now (some b) (some v) = true) := by
  have hd' : v.deadline ≠ 0 := Nat.pos_iff_ne_zero.mp hd
  refine ⟨?_, ?_, ?_⟩
  · simp [bountyPageResolveShown, canResolveVote, isVotingExpired, votingDeadline,
      allVotesCast, totalVoted, hd']
  · intro h
    simp [canResolveVote, allVotesCast, totalVoted, h]
  · intro claimId h
    simp only [claimPageResolveShown, Bool.and_eq_true] at h
    simp [canResolveVote, h.2]

/-- Witness for C1: with `yes + no = totalStaked = 5` and the clock well
before the deadline, resolve is already eligible. -/
theorem C1_resolveVote_gate_witness :
    canResolveVote 50
      (some { address := "0xb0", issuer := "0xa0", metadataURI := "", state := 1,
              joinable := true, totalStaked := 5, claimsCount := 1 })
      (some { claimId := 0, yes := 3, no := 2, deadline := 100, votingRound := 1 }) =
      true :=
  (C1_resolveVote_gate 50
      { address := "0xb0", issuer := "0xa0", metadataURI := "", state := 1,
        joinable := true, totalStaked := 5, claimsCount := 1 }
      { claimId := 0, yes := 3, no := 2, deadline := 100, votingRound := 1 }
      (by decide)).2.1 rfl

/-- Counterexample to claim C2: on an OPEN joinable bounty, a caller who
is neither the issuer nor a staker invoking `handleStartVote` produces
the `initiateVote` chain write — there is no local precondition
rejection. -/
theorem C2_initiateVote_counterexample :
    ({ address := "0xb0", issuer := "0xa1", metadataURI := "", state := 0,
       joinable := true, totalStaked := 5, claimsCount := 1 } : BountyData).state =
        BountyState.OPEN ∧
    ({ address := "0xb0", issuer := "0xa1", metadataURI := "", state := 0,
       joinable := true, totalStaked := 5, claimsCount := 1 } : BountyData).joinable =
        true ∧
    isIssuer
      (some { address := "0xb0", issuer := "0xa1", metadataURI := "", state := 0,
              joinable := true, totalStaked := 5, claimsCount := 1 })
      (some "0xc3") = false ∧
    hasStake (some 0) = false ∧
    handleStartVote (some "0xc3") none 7 =
      HandlerOutcome.chainWrite "initiateVote" [7] ∧
    (handleStartVote (some "0xc3") none 7).isPrecondError = false := by
  refine ⟨rfl, rfl, ?_, rfl, rfl, rfl⟩
  decide

/-- Claim C2 (amended): the start-vote action surface is offered only to
actors with standing — the claim page button requires the issuer on an
OPEN joinable bounty, and `canStartVote` requires OPEN and (issuer or
staker) — but the handler itself performs no standing check: it never
produces a local precondition error. -/
theorem C2_initiateVote_amended (b : BountyData) (voteState? : Option VoteState)
    (claimId : Nat) (address? : Option Address) (userStake? : Option Nat)
    (hasVoted? : Option Bool) (connectResult? : Option Address) :
    (selectForVotingShown b voteState? claimId address? userStake? hasVoted? = true →
      b.state = BountyState.OPEN ∧ isIssuer (some b) address? = true ∧
        b.joinable = true) ∧
    (canStartVote (some b) address? userStake? = true →
      b.state = BountyState.OPEN ∧
        (isIssuer (some b) address? = true ∨ hasStake userStake? = true)) ∧
    (handleStartVote address? connectResult? claimId).isPrecondError = false := by
  refine ⟨?_, ?_, ?_⟩
  · intro h
    unfold selectForVotingShown at h
    split_ifs at h
    simp only [Bool.and_eq_true, beq_iff_eq] at h
    exact ⟨h.1.1, h.1.2, h.2⟩
  · intro h
    simp only [canStartVote, Bool.and_eq_true, Bool.or_eq_true, beq_iff_eq] at h
    exact ⟨h.1, h.2⟩
  · unfold handleStartVote
    cases address? with
    | some a => rfl
    | none =>
        cases connectResult? with
        | some a => rfl
        | none => rfl

/-- Witness for the amended C2: the claim-page button shown to the issuer
implies issuer standing, and the handler yields no precondition error. -/
theorem C2_initiateVote_amended_witness :
    isIssuer
      (some { address := "0xb0", issuer := "0xa1", metadataURI := "", state := 0,
              joinable := true, totalStaked := 5, claimsCount := 1 })
      (some "0xa1") = true ∧
    (handleStartVote (some "0xa1") none 0).isPrecondError = false :=
  ⟨((C2_initiateVote_amended
        { address := "0xb0", issuer := "0xa1", metadataURI := "", state := 0,
          joinable := true, totalStaked := 5, claimsCount := 1 }
        none 0 (some "0xa1") (some 0) none none).1 (by decide)).2.1,
   (C2_initiateVote_amended
        { address := "0xb0", issuer := "0xa1", metadataURI := "", state := 0,
          joinable := true, totalStaked := 5, claimsCount := 1 }
        none 0 (some "0xa1") (some 0) none none).2.2⟩

/-- Claim C3: a funder who has voted in the current round is not offered
the vote action again in that round (on either page); the check is scoped
by the round number, so in a fresh round `n + 1` the same funder — whose
flag is set only for round `n` — is offered the vote again; and the vote
action is never offered without stake. -/
theorem C3_vote_once_per_round (chain : Address → Nat → Bool) (now : Nat)
    (b : BountyData) (v : VoteState) (user : Address) (stake : Nat) (n : Nat) :
    (chain user v.votingRound = true →
      bountyPageVotingAction chain now b (some v) (some user) (some stake) ≠
          VotingAction.voteButtons ∧
        claimPageVoteButtonsShown chain b (some v) v.claimId (some user)
          (some stake) = false) ∧
    (v.votingRound = n + 1 → chain user n = true → chain user (n + 1) = false →
      0 < stake → b.state = BountyState.VOTING →
      canResolveVote now (some b) (some v) = false →
      bountyPageVotingAction chain now b (some v) (some user) (some stake) =
        VotingAction.voteButtons) ∧
    (stake = 0 →
      bountyPageVotingAction chain now b (some v) (some user) (some stake) ≠
          VotingAction.voteButtons ∧
        claimPageVoteButtonsShown chain b (some v) v.claimId (some user)
          (some stake) = false) := by
  refine ⟨?_, ?_, ?_⟩
  · intro h
    constructor
    · unfold bountyPageVotingAction
      split_ifs with hst
      · simp only [useHasVoted, Option.map_some', Option.getD_some, h]
        exact votingActionArea_ne_voteButtons_of_voted now b (some v) _
      · simp
    · simp [claimPageVoteButtonsShown, useHasVoted, h]
  · intro hr hn hn1 hs hst hres
    unfold bountyPageVotingAction
    rw [hst]
    simp only [beq_self_eq_true, if_true]
    unfold votingActionArea
    rw [hres]
    simp only [Bool.false_eq_true, if_false]
    simp [useHasVoted, hasStake, hr, hn1, hs, Nat.pos_iff_ne_zero.mp hs]
  · intro h
    subst h
    constructor
    · unfold bountyPageVotingAction
      split_ifs with hst
      · simp only [hasStake, Nat.lt_irrefl, decide_False]
        exact votingActionArea_ne_voteButtons_of_stakeless now b (some v) _
      · simp
    · simp [claimPageVoteButtonsShown, hasStake]

/-- Witness for C3: a funder flagged only in round 1 is offered the vote
buttons again in round 2 of the same bounty. -/
theorem C3_vote_once_per_round_witness :
    bountyPageVotingAction
        (fun u r => u == "0xf1" && r == 1) 50
        { address := "0xb0", issuer := "0xa0", metadataURI := "", state := 1,
          joinable := true, totalStaked := 5, claimsCount := 1 }
        (some { claimId := 0, yes := 1, no := 0, deadline := 100, votingRound := 2 })
        (some "0xf1") (some 2) =
      VotingAction.voteButtons :=
  (C3_vote_once_per_round (fun u r => u == "0xf1" && r == 1) 50
      { address := "0xb0", issuer := "0xa0", metadataURI := "", state := 1,
        joinable := true, totalStaked := 5, claimsCount := 1 }
      { claimId := 0, yes := 1, no := 0, deadline := 100, votingRound := 2 }
      "0xf1" 2 1).2.1 rfl (by decide) (by decide) (by decide) rfl (by decide)

/-- Claim C7: a create-bounty submission with a blank (or
whitespace-only) title or description, or with a missing or non-positive
amount, is rejected synchronously: one of the two specific validation
messages is set, no network call (upload or contract write) is issued,
and the form fields are left unchanged. -/
theorem C7_create_validation (form : CreateForm) (wallet? : Option Address)
    (uploadResult : Option String)
    (h : (jsTrim form.title) = "" ∨ (jsTrim form.description) = "" ∨ form.amount = "" ∨
      ∃ q, jsParseFloat form.amount = some q ∧ q ≤ 0) :
    (handleSubmit form wallet? uploadResult).2 = [] ∧
    ((handleSubmit form wallet? uploadResult).1.error =
        some "Title and description are required" ∨
      (handleSubmit form wallet? uploadResult).1.error =
        some "Please enter a valid amount") ∧
    (handleSubmit form wallet? uploadResult).1.title = form.title ∧
    (handleSubmit form wallet? uploadResult).1.description = form.description ∧
    (handleSubmit form wallet? uploadResult).1.amount = form.amount ∧
    (handleSubmit form wallet? uploadResult).1.joinable = form.joinable := by
  by_cases hc1 : ((jsTrim form.title) == "" || (jsTrim form.description) == "") = true
  · simp [handleSubmit, hc1]
  · have hai : amountInvalid form.amount = true := by
      rcases h with h | h | h | ⟨q, hq, hq0⟩
      · exact absurd (by simp [h]) hc1
      · exact absurd (by simp [h]) hc1
      · simp [amountInvalid, h]
      · simp [amountInvalid, hq, hq0]
    simp [handleSubmit, hc1, hai]

/-- Witness for C7: an empty title is rejected with the title/description
message, without any network call, leaving the amount field untouched. -/
theorem C7_create_validation_witness :
    (handleSubmit
        { title := "", description := "d", amount := "1", joinable := true,
          error := none } none none).2 = [] ∧
    (handleSubmit
        { title := "", description := "d", amount := "1", joinable := true,
          error := none } none none).1.amount = "1" :=
  ⟨(C7_create_validation
      { title := "", description := "d", amount := "1", joinable := true,
        error := none } none none (Or.inl (by decide))).1,
   (C7_create_validation
      { title := "", description := "d", amount := "1", joinable := true,
        error := none } none none (Or.inl (by decide))).2.2.2.2.1⟩

/-- Fixture read results: address `0xa1` has a successful issuer read and
failed reads for every other field; all other addresses fail the issuer
read. -/
def exampleReads : Address → RawBountyReads := fun a =>
  if a = "0xa1" then
    { issuer := some "0xi1", metadataURI := none, state := none, joinable := none,
      totalStaked := none, claimsCount := none }
  else
    { issuer := none, metadataURI := none, state := none, joinable := none,
      totalStaked := none, claimsCount := none }

/-- Claim C10: in the many-bounties projection, a bounty whose issuer
read failed is omitted from the result; a bounty whose issuer read
succeeded but whose other reads failed is included with the defaults
`metadataURI = ""`, `state = OPEN`, `joinable = false`, `totalStaked =
0`, `claimsCount = 0`; in particular a failed state read is reported as
`OPEN`. -/
theorem C10_projection_defaults (addresses : List Address)
    (reads : Address → RawBountyReads) (a : Address) (iss : Address) :
    ((reads a).issuer = none →
      ∀ b ∈ parseBountyReads addresses reads, b.address ≠ a) ∧
    (a ∈ addresses →
      reads a = { issuer := some iss, metadataURI := none, state := none,
                  joinable := none, totalStaked := none, claimsCount := none } →
      ({ address := a, issuer := iss, metadataURI := "", state := BountyState.OPEN,
         joinable := false, totalStaked := 0, claimsCount := 0,
         metadata := none } : BountyData) ∈ parseBountyReads addresses reads) ∧
    ((reads a).state = none →
      ∀ b ∈ parseBountyReads addresses reads, b.address = a →
        b.state = BountyState.OPEN) := by
  refine ⟨?_, ?_, ?_⟩
  · intro hnone b hb hba
    obtain ⟨x, hxmem, hfx⟩ := List.mem_filterMap.mp hb
    rcases hx : (reads x).issuer with _ | i
    · rw [hx] at hfx
      simp at hfx
    · rw [hx] at hfx
      simp only [Option.some.injEq] at hfx
      rw [← hfx] at hba
      simp only at hba
      rw [hba] at hx
      rw [hnone] at hx
      exact Option.noConfusion hx
  · intro ha hr
    refine List.mem_filterMap.mpr ⟨a, ha, ?_⟩
    rw [hr]
    rfl
  · intro hstate b hb hba
    obtain ⟨x, hxmem, hfx⟩ := List.mem_filterMap.mp hb
    rcases hx : (reads x).issuer with _ | i
    · rw [hx] at hfx
      simp at hfx
    · rw [hx] at hfx
      simp only [Option.some.injEq] at hfx
      rw [← hfx] at hba
      simp only at hba
      rw [← hfx]
      simp only
      rw [hba, hstate]
      rfl

/-- Witness for C10: the projection of a two-address batch includes the
all-defaults record for the address whose non-issuer reads failed. -/
theorem C10_projection_defaults_witness :
    ({ address := "0xa1", issuer := "0xi1", metadataURI := "",
       state := BountyState.OPEN, joinable := false, totalStaked := 0,
       claimsCount := 0, metadata := none } : BountyData) ∈
      parseBountyReads ["0xa0", "0xa1"] exampleReads :=
  (C10_projection_defaults ["0xa0", "0xa1"] exampleReads "0xa1" "0xi1").2.1
    (by decide) (by decide)

/-- Contents of the metadata map: any URI held by some bounty in the
batch (and nonempty) is bound to its own `fetchFromIPFS` result;
everything else falls through to the accumulator. -/
theorem buildMetadataMapAux_get (env : String → FetchOutcome) (u : String) :
    ∀ (bs : List BountyData) (acc : JsMap (Option Doc)),
      mapGet (buildMetadataMapAux env bs acc) u =
        if u ≠ "" ∧ bs.any (fun b => b.metadataURI == u) = true then
          some (fetchFromIPFS env u)
        else mapGet acc u := by
  intro bs
  induction bs with
  | nil => intro acc; simp [buildMetadataMapAux]
  | cons b bs ih =>
      intro acc
      rw [buildMetadataMapAux, ih]
      by_cases hu : u = ""
      · subst hu
        simp only [ne_eq, not_true_eq_false, false_and, if_false]
        by_cases hb : b.metadataURI = ""
        · simp [hb]
        · simp only [hb, ne_eq, not_false_eq_true, if_true]
          exact mapGet_mapSet_other _ _ _ _ (Ne.symm hb)
      · by_cases hb : (b.metadataURI == u) = true
        · have hb' : b.metadataURI = u := by simpa using hb
          have hbne : b.metadataURI ≠ "" := by rw [hb']; exact hu
          have hcons : ((b :: bs).any (fun x => x.metadataURI == u)) = true := by
            simp only [List.any_cons, hb', beq_self_eq_true, Bool.true_or]
          rw [if_pos (And.intro hu hcons)]
          by_cases hany : bs.any (fun x => x.metadataURI == u) = true
          · rw [if_pos (And.intro hu hany)]
          · rw [if_neg (fun hc => hany hc.2), if_pos hbne, hb', mapGet_mapSet_self]
        · have hbf : (b.metadataURI == u) = false := by simpa using hb
          have hbne' : u ≠ b.metadataURI := by
            intro he
            exact hb (by simp [he])
          have hacc :
              mapGet
                (if b.metadataURI ≠ "" then
                  mapSet acc b.metadataURI (fetchFromIPFS env b.metadataURI)
                 else acc) u = mapGet acc u := by
            by_cases hbe : b.metadataURI = ""
            · simp [hbe]
            · simp only [hbe, ne_eq, not_false_eq_true, if_true]
              exact mapGet_mapSet_other _ _ _ _ hbne'
          rw [hacc, show ((b :: bs).any (fun x => x.metadataURI == u)) =
            bs.any (fun x => x.metadataURI == u) from by
              simp only [List.any_cons, hbf, Bool.false_or]]

/-- Claim C4: `fetchFromIPFS` resolves to `null` rather than raising: the
empty URI yields `null` without a request, any environment without a
successful response yields `null`, and the `useBounties` merge projects
every bounty of a batch to a structurally intact record whose `metadata`
is its own fetch result — `none` exactly for the bounties whose
resolution failed or whose URI is empty, independently of the other
bounties in the batch. -/
theorem C4_metadata_failure_tolerance (env : String → FetchOutcome) (uri : String)
    (bounties : List BountyData) :
    fetchFromIPFS env "" = none ∧
    ((∀ u d, env u ≠ FetchOutcome.ok d) → fetchFromIPFS env uri = none) ∧
    mergeBountyMetadata env bounties =
      bounties.map (fun b =>
        { b with metadata := if b.metadataURI = "" then none
                             else fetchFromIPFS env b.metadataURI }) := by
  refine ⟨rfl, ?_, ?_⟩
  · intro h
    have hd : ∀ x, directResult (env x) = none := by
      intro x
      cases hx : env x with
      | ok d => exact absurd hx (h x d)
      | threw => rfl
      | notOk s => rfl
    unfold fetchFromIPFS fetchFromIPFSRun
    split_ifs with h1 h2 h3
    · rfl
    · simp [apiFetch, hd]
    · cases jsMatchIpfsCid uri with
      | some cid => simp [apiFetch, hd]
      | none => simp [hd]
    · simp [apiFetch, hd]
  · unfold mergeBountyMetadata
    refine List.map_congr_left ?_
    intro b hb
    by_cases hbe : b.metadataURI = ""
    · rw [buildMetadataMap, buildMetadataMapAux_get]
      simp [hbe, mapGet]
    · rw [buildMetadataMap, buildMetadataMapAux_get]
      have hany : bounties.any (fun x => x.metadataURI == b.metadataURI) = true :=
        List.any_eq_true.mpr ⟨b, hb, by simp⟩
      simp [hbe, hany]

/-- Witness for C4: under an environment where every fetch throws, an
`ipfs://` URI resolves to `null` instead of raising. -/
theorem C4_metadata_failure_tolerance_witness :
    fetchFromIPFS (fun _ => FetchOutcome.threw) "ipfs://QmX" = none :=
  (C4_metadata_failure_tolerance (fun _ => FetchOutcome.threw) "ipfs://QmX" []).2.1
    (fun _ _ h => FetchOutcome.noConfusion h)

/-- Counterexample to claim C6: a batch of two bounties sharing one
metadata URI issues that URI to `fetchFromIPFS` twice, not once. -/
theorem C6_dedup_counterexample :
    (metadataFetchCalls
        [{ address := "0xb1", issuer := "0xa1", metadataURI := "ipfs://QmSame",
           state := 0, joinable := true, totalStaked := 1, claimsCount := 0 },
         { address := "0xb2", issuer := "0xa2", metadataURI := "ipfs://QmSame",
           state := 0, joinable := true, totalStaked := 1, claimsCount := 0 }]).count
      "ipfs://QmSame" = 2 := by decide

/-- Per-item fan-out count: the per-URI number of fetch calls equals the
number of items carrying that URI. -/
theorem perItemCalls_count {α : Type} (key : α → String) (u : String) (hu : u ≠ "") :
    ∀ l : List α,
      ((l.filter (fun x => key x != "")).map key).count u =
        l.countP (fun x => key x == u) := by
  intro l
  induction l with
  | nil => simp
  | cons x l ih =>
      by_cases hx : key x = ""
      · rw [List.countP_cons]
        simp [hx, Ne.symm hu, ih]
      · rw [List.countP_cons]
        simp only [List.filter_cons, hx, bne_iff_ne, ne_eq, not_false_eq_true, if_true,
          List.map_cons]
        rw [List.count_cons, ih]

/-- Claim C6 (amended): metadata resolution fans out once per item — a
URI carried by `n` items of the batch is fetched `n` times — while the
result map is keyed by URI, so duplicate URIs collapse to a single entry
holding the shared fetch result. -/
theorem C6_fanout_amended (env : String → FetchOutcome) (bounties : List BountyData)
    (claims : List ClaimData) (u : String) (h : u ≠ "") :
    ((mapGet (buildMetadataMap env bounties) u).isSome =
      bounties.any (fun b => b.metadataURI == u)) ∧
    (bounties.any (fun b => b.metadataURI == u) = true →
      mapGet (buildMetadataMap env bounties) u = some (fetchFromIPFS env u)) ∧
    ((metadataFetchCalls bounties).count u =
      bounties.countP (fun b => b.metadataURI == u)) ∧
    ((proofFetchCalls claims).count u =
      claims.countP (fun c => c.proofURI == u)) := by
  refine ⟨?_, ?_, ?_, ?_⟩
  · rw [buildMetadataMap, buildMetadataMapAux_get]
    by_cases hany : bounties.any (fun b => b.metadataURI == u) = true
    · simp [h, hany]
    · simp [h, hany, mapGet]
  · intro hany
    rw [buildMetadataMap, buildMetadataMapAux_get]
    simp [h, hany]
  · exact perItemCalls_count (fun b => b.metadataURI) u h bounties
  · exact perItemCalls_count (fun c => c.proofURI) u h claims

/-- Witness for the amended C6: in the two-bounty batch sharing a URI the
call count is the item count (two), and the map holds a single entry for
the shared URI. -/
theorem C6_fanout_amended_witness :
    (metadataFetchCalls
        [{ address := "0xb1", issuer := "0xa1", metadataURI := "ipfs://QmSame",
           state := 0, joinable := true, totalStaked := 1, claimsCount := 0 },
         { address := "0xb2", issuer := "0xa2", metadataURI := "ipfs://QmSame",
           state := 0, joinable := true, totalStaked := 1, claimsCount := 0 }]).count
        "ipfs://QmSame" =
      ([{ address := "0xb1", issuer := "0xa1", metadataURI := "ipfs://QmSame",
          state := 0, joinable := true, totalStaked := 1, claimsCount := 0 },
        { address := "0xb2", issuer := "0xa2", metadataURI := "ipfs://QmSame",
          state := 0, joinable := true, totalStaked := 1, claimsCount := 0 }] :
          List BountyData).countP (fun b => b.metadataURI == "ipfs://QmSame") :=
  (C6_fanout_amended (fun _ => FetchOutcome.threw)
      [{ address := "0xb1", issuer := "0xa1", metadataURI := "ipfs://QmSame",
         state := 0, joinable := true, totalStaked := 1, claimsCount := 0 },
       { address := "0xb2", issuer := "0xa2", metadataURI := "ipfs://QmSame",
         state := 0, joinable := true, totalStaked := 1, claimsCount := 0 }]
      [] "ipfs://QmSame" (by decide)).2.2.1

/-- Every request the gateway loop issues carries the 10-second timeout. -/
theorem gatewayLoopGo_timeout (env : String → FetchOutcome) (cid : String) :
    ∀ gs, ∀ r ∈ (gatewayLoopGo env cid gs).1, r.timeoutMs = 10000 := by
  intro gs
  induction gs with
  | nil => intro r hr; simp [gatewayLoopGo] at hr
  | cons g gs ih =>
      intro r hr
      rw [gatewayLoopGo] at hr
      cases henv : env (g ++ "/" ++ cid) with
      | ok d =>
          rw [henv] at hr
          simp only [List.mem_singleton] at hr
          rw [hr]
      | threw =>
          rw [henv] at hr
          simp only [List.mem_cons] at hr
          rcases hr with hr | hr
          · rw [hr]
          · exact ih r hr
      | notOk s =>
          rw [henv] at hr
          simp only [List.mem_cons] at hr
          rcases hr with hr | hr
          · rw [hr]
          · exact ih r hr

/-- The URLs the gateway loop issues are a prefix of the gateway list in
its declared order. -/
theorem gatewayLoopGo_urls (env : String → FetchOutcome) (cid : String) :
    ∀ gs, ∃ k, (gatewayLoopGo env cid gs).1.map GatewayRequest.url =
      (gs.map (fun g => g ++ "/" ++ cid)).take k := by
  intro gs
  induction gs with
  | nil => exact ⟨0, by simp [gatewayLoopGo]⟩
  | cons g gs ih =>
      obtain ⟨k, hk⟩ := ih
      cases henv : env (g ++ "/" ++ cid) with
      | ok d =>
          refine ⟨1, ?_⟩
          rw [gatewayLoopGo, henv]
          simp [List.take_succ_cons]
      | threw =>
          refine ⟨k + 1, ?_⟩
          rw [gatewayLoopGo, henv]
          simp only [List.map_cons, List.take_succ_cons, List.mem_cons]
          rw [hk]
      | notOk s =>
          refine ⟨k + 1, ?_⟩
          rw [gatewayLoopGo, henv]
          simp only [List.map_cons, List.take_succ_cons, List.mem_cons]
          rw [hk]

/-- The gateway loop returns the first successful gateway's document. -/
theorem gatewayLoopGo_result (env : String → FetchOutcome) (cid : String) :
    ∀ gs, (gatewayLoopGo env cid gs).2 =
      gs.findSome? (fun g => directResult (env (g ++ "/" ++ cid))) := by
  intro gs
  induction gs with
  | nil => rfl
  | cons g gs ih =>
      rw [gatewayLoopGo, List.findSome?]
      cases henv : env (g ++ "/" ++ cid) with
      | ok d => rfl
      | threw => simpa [directResult] using ih
      | notOk s => simpa [directResult] using ih

/-- Claim C5: an uncached `GET /api/ipfs/{cid}` issues gateway requests
in the fixed `IPFS_GATEWAYS` order, each with the bounded 10-second
timeout; the response is the JSON of the first gateway that succeeds, and
the 502 error is returned exactly when every gateway attempt failed. -/
theorem C5_gateway_priority (env : String → FetchOutcome) (cache : Cache)
    (now : Nat) (cid : String) (hcid : cid ≠ "")
    (hmiss : mapGet cache cid = none) :
    (∀ r ∈ (ipfsGET env cache now cid).1, r.timeoutMs = 10000) ∧
    (∃ k, (ipfsGET env cache now cid).1.map GatewayRequest.url =
      (IPFS_GATEWAYS.map (fun g => g ++ "/" ++ cid)).take k) ∧
    ((ipfsGET env cache now cid).2.1 =
      match IPFS_GATEWAYS.findSome? (fun g => directResult (env (g ++ "/" ++ cid))) with
      | some d => GetResponse.ok d
      | none => GetResponse.err "Failed to fetch from IPFS" 502) ∧
    ((ipfsGET env cache now cid).2.1 = GetResponse.err "Failed to fetch from IPFS" 502 ↔
      ∀ g ∈ IPFS_GATEWAYS, directResult (env (g ++ "/" ++ cid)) = none) := by
  have hg : ipfsGET env cache now cid = ipfsGETFetch env cache now cid := by
    rw [ipfsGET, if_neg hcid, hmiss]
  have hloop := gatewayLoopGo_result env cid IPFS_GATEWAYS
  refine ⟨?_, ?_, ?_, ?_⟩
  · intro r hr
    rw [hg] at hr
    rw [ipfsGETFetch] at hr
    rcases hl : gatewayLoop env cid with ⟨reqs, res⟩
    rw [hl] at hr
    cases res with
    | some d =>
        simp only at hr
        exact gatewayLoopGo_timeout env cid IPFS_GATEWAYS r (by rw [show gatewayLoopGo env cid IPFS_GATEWAYS = (reqs, some d) from hl]; exact hr)
    | none =>
        simp only at hr
        exact gatewayLoopGo_timeout env cid IPFS_GATEWAYS r (by rw [show gatewayLoopGo env cid IPFS_GATEWAYS = (reqs, none) from hl]; exact hr)
  · obtain ⟨k, hk⟩ := gatewayLoopGo_urls env cid IPFS_GATEWAYS
    refine ⟨k, ?_⟩
    rw [hg, ipfsGETFetch]
    rcases hl : gatewayLoop env cid with ⟨reqs, res⟩
    cases res with
    | some d =>
        simp only
        rw [← hk, show gatewayLoopGo env cid IPFS_GATEWAYS = (reqs, some d) from hl]
    | none =>
        simp only
        rw [← hk, show gatewayLoopGo env cid IPFS_GATEWAYS = (reqs, none) from hl]
  · rw [hg, ipfsGETFetch]
    rcases hl : gatewayLoop env cid with ⟨reqs, res⟩
    have hres : res = IPFS_GATEWAYS.findSome?
        (fun g => directResult (env (g ++ "/" ++ cid))) := by
      rw [← hloop, show gatewayLoopGo env cid IPFS_GATEWAYS = (reqs, res) from hl]
    cases res with
    | some d => simp only; rw [← hres]
    | none => simp only; rw [← hres]
  · rw [hg, ipfsGETFetch]
    rcases hl : gatewayLoop env cid with ⟨reqs, res⟩
    have hres : res = IPFS_GATEWAYS.findSome?
        (fun g => directResult (env (g ++ "/" ++ cid))) := by
      rw [← hloop, show gatewayLoopGo env cid IPFS_GATEWAYS = (reqs, res) from hl]
    cases res with
    | some d =>
        simp only
        constructor
        · intro hcontra
          exact absurd hcontra (by simp)
        · intro hall
          have := List.findSome?_eq_none_iff.mpr hall
          rw [← hres] at this
          exact Option.noConfusion this
    | none =>
        simp only
        constructor
        · intro _
          exact List.findSome?_eq_none_iff.mp (by rw [← hres])
        · intro _
          trivial

/-- Witness for C5: with the first two gateways unreachable and the third
serving the document, the uncached route responds with that document. -/
theorem C5_gateway_priority_witness :
    (ipfsGET
        (fun url => if url = "https://cloudflare-ipfs.com/ipfs/QmW" then
          FetchOutcome.ok "docW" else FetchOutcome.threw)
        [] 0 "QmW").2.1 = GetResponse.ok "docW" := by
  have h := (C5_gateway_priority
      (fun url => if url = "https://cloudflare-ipfs.com/ipfs/QmW" then
        FetchOutcome.ok "docW" else FetchOutcome.threw)
      [] 0 "QmW" (by decide) rfl).2.2.1
  rw [h]
  rfl

/-- The fetch-and-cache path preserves cache/upstream consistency. -/
theorem ipfsGETFetch_preserves (env : String → FetchOutcome) (cache : Cache)
    (now : Nat) (cid : String) (h : cacheConsistent env cache) :
    cacheConsistent env (ipfsGETFetch env cache now cid).2.2 := by
  rw [ipfsGETFetch]
  rcases hl : gatewayLoop env cid with ⟨reqs, res⟩
  cases res with
  | some d =>
      simp only
      intro c e hce
      by_cases hcc : c = cid
      · subst hcc
        rw [mapGet_mapSet_self] at hce
        injection hce with he
        rw [← he, hl]
      · rw [mapGet_mapSet_other _ _ _ _ hcc] at hce
        exact h c e hce
  | none => exact h

/-- The route `GET` preserves cache/upstream consistency. -/
theorem ipfsGET_preserves_cacheConsistent (env : String → FetchOutcome)
    (cache : Cache) (now : Nat) (cid : String) (h : cacheConsistent env cache) :
    cacheConsistent env (ipfsGET env cache now cid).2.2 := by
  rw [ipfsGET]
  split_ifs with h1
  · exact h
  · cases hc : mapGet cache cid with
    | some e =>
        show cacheConsistent env
          ((if now - e.timestamp < CACHE_TTL then
              (([] : List GatewayRequest), GetResponse.ok e.data, cache)
            else ipfsGETFetch env cache now cid).2.2)
        split_ifs with h2
        · exact h
        · exact ipfsGETFetch_preserves env cache now cid h
    | none => exact ipfsGETFetch_preserves env cache now cid h

/-- A cached entry consistent with the upstream is served back verbatim,
whether from the cache or by re-fetching after the TTL expired. -/
theorem ipfsGET_ok_of_entry (env : String → FetchOutcome) (cache : Cache)
    (t : Nat) (cid : String) (d : Doc) (ts : Nat)
    (hcons : cacheConsistent env cache)
    (hentry : mapGet cache cid = some { data := d, timestamp := ts })
    (hcid : cid ≠ "") :
    (ipfsGET env cache t cid).2.1 = GetResponse.ok d := by
  rw [ipfsGET, if_neg hcid, hentry]
  show (if t - ts < CACHE_TTL then
      (([] : List GatewayRequest), GetResponse.ok d, cache)
    else ipfsGETFetch env cache t cid).2.1 = GetResponse.ok d
  split_ifs with h1
  · rfl
  · rw [ipfsGETFetch]
    have hres0 := hcons cid { data := d, timestamp := ts } hentry
    rcases hl : gatewayLoop env cid with ⟨reqs, res⟩
    rw [hl] at hres0
    have hres : res = some d := hres0
    subst hres
    rfl

/-- A successful fetch-path `GET` leaves the document cached at the
request timestamp. -/
theorem ipfsGETFetch_ok_entry (env : String → FetchOutcome) (cache : Cache)
    (now : Nat) (cid : String) (d : Doc)
    (h : (ipfsGETFetch env cache now cid).2.1 = GetResponse.ok d) :
    mapGet (ipfsGETFetch env cache now cid).2.2 cid =
      some { data := d, timestamp := now } := by
  rw [ipfsGETFetch] at h ⊢
  rcases hl : gatewayLoop env cid with ⟨reqs, res⟩
  rw [hl] at h
  cases res with
  | some d0 =>
      have h' : GetResponse.ok d0 = GetResponse.ok d := h
      injection h' with hd
      show mapGet (mapSet cache cid { data := d0, timestamp := now }) cid =
        some { data := d, timestamp := now }
      rw [mapGet_mapSet_self, hd]
  | none =>
      have h' : GetResponse.err "Failed to fetch from IPFS" 502 = GetResponse.ok d := h
      exact absurd h' (by simp)

/-- A successful `GET` leaves some cached entry holding the returned
document. -/
theorem ipfsGET_ok_entry (env : String → FetchOutcome) (cache : Cache)
    (t : Nat) (cid : String) (d : Doc)
    (h : (ipfsGET env cache t cid).2.1 = GetResponse.ok d) :
    ∃ ts, mapGet (ipfsGET env cache t cid).2.2 cid =
      some { data := d, timestamp := ts } := by
  by_cases hcid : cid = ""
  · subst hcid
    rw [ipfsGET] at h
    simp at h
  · rw [ipfsGET, if_neg hcid] at h ⊢
    cases hc : mapGet cache cid with
    | some e =>
        rw [hc] at h
        have h' : (if t - e.timestamp < CACHE_TTL then
            (([] : List GatewayRequest), GetResponse.ok e.data, cache)
          else ipfsGETFetch env cache t cid).2.1 = GetResponse.ok d := h
        show ∃ ts, mapGet ((if t - e.timestamp < CACHE_TTL then
            (([] : List GatewayRequest), GetResponse.ok e.data, cache)
          else ipfsGETFetch env cache t cid).2.2) cid =
            some { data := d, timestamp := ts }
        split_ifs at h' ⊢ with h1
        · injection h' with hd
          exact ⟨e.timestamp, by rw [hc, ← hd]⟩
        · exact ⟨t, ipfsGETFetch_ok_entry env cache t cid d h'⟩
    | none =>
        rw [hc] at h
        exact ⟨t, ipfsGETFetch_ok_entry env cache t cid d h⟩

/-- Claim C9: resolution is idempotent — after a successful `GET` for a
cid (over a consistent cache), any second `GET` for the same cid returns
the identical JSON document; and when the first `GET` was uncached and
the second falls within the five-minute TTL, the second is served from
the cache with no upstream gateway request at all. -/
theorem C9_idempotent_resolution (env : String → FetchOutcome) (cache : Cache)
    (t1 t2 : Nat) (cid : String) (d : Doc)
    (hcons : cacheConsistent env cache)
    (h1 : (ipfsGET env cache t1 cid).2.1 = GetResponse.ok d) :
    ((ipfsGET env (ipfsGET env cache t1 cid).2.2 t2 cid).2.1 = GetResponse.ok d) ∧
    (mapGet cache cid = none → t2 - t1 < CACHE_TTL →
      ipfsGET env (ipfsGET env cache t1 cid).2.2 t2 cid =
        ([], GetResponse.ok d, (ipfsGET env cache t1 cid).2.2)) := by
  have hcid : cid ≠ "" := by
    intro hc
    subst hc
    rw [ipfsGET] at h1
    simp at h1
  constructor
  · obtain ⟨ts, hts⟩ := ipfsGET_ok_entry env cache t1 cid d h1
    exact ipfsGET_ok_of_entry env _ t2 cid d ts
      (ipfsGET_preserves_cacheConsistent env cache t1 cid hcons) hts hcid
  · intro hnone httl
    have hfirst : ipfsGET env cache t1 cid = ipfsGETFetch env cache t1 cid := by
      rw [ipfsGET, if_neg hcid, hnone]
    rw [hfirst] at h1 ⊢
    have hentry : mapGet (ipfsGETFetch env cache t1 cid).2.2 cid =
        some { data := d, timestamp := t1 } :=
      ipfsGETFetch_ok_entry env cache t1 cid d h1
    rw [ipfsGET, if_neg hcid, hentry]
    show (if t2 - t1 < CACHE_TTL then
        (([] : List GatewayRequest), GetResponse.ok d,
          (ipfsGETFetch env cache t1 cid).2.2)
      else ipfsGETFetch env ((ipfsGETFetch env cache t1 cid).2.2) t2 cid) =
      ([], GetResponse.ok d, (ipfsGETFetch env cache t1 cid).2.2)
    rw [if_pos httl]

/-- Witness for C9: a second request 0.5 seconds after the first is
served the identical document from the cache, issuing no gateway
request. -/
theorem C9_idempotent_resolution_witness :
    ipfsGET
        (fun url => if url = "https://gateway.pinata.cloud/ipfs/QmZ" then
          FetchOutcome.ok "docZ" else FetchOutcome.threw)
        (ipfsGET
          (fun url => if url = "https://gateway.pinata.cloud/ipfs/QmZ" then
            FetchOutcome.ok "docZ" else FetchOutcome.threw)
          [] 1000 "QmZ").2.2 1500 "QmZ" =
      ([], GetResponse.ok "docZ",
        (ipfsGET
          (fun url => if url = "https://gateway.pinata.cloud/ipfs/QmZ" then
            FetchOutcome.ok "docZ" else FetchOutcome.threw)
          [] 1000 "QmZ").2.2) :=
  (C9_idempotent_resolution
      (fun url => if url = "https://gateway.pinata.cloud/ipfs/QmZ" then
        FetchOutcome.ok "docZ" else FetchOutcome.threw)
      [] 1000 1500 "QmZ" "docZ"
      (fun c e h => by simp [mapGet] at h) rfl).2 rfl (by decide)

/-- Consuming a literal prefix off itself leaves the rest. -/
theorem stripLit?_append (p r : List Char) : stripLit? p (p ++ r) = some r := by
  induction p with
  | nil => rfl
  | cons c cs ih => simp [stripLit?, ih]

/-- A successful literal consumption decomposes the string. -/
theorem stripLit?_eq_some (p : List Char) :
    ∀ s r, stripLit? p s = some r → s = p ++ r := by
  induction p with
  | nil =>
      intro s r h
      injection h with h
  | cons c cs ih =>
      intro s r h
      cases s with
      | nil => exact Option.noConfusion h
      | cons a as =>
          rw [stripLit?] at h
          split_ifs at h with hca
          subst hca
          rw [ih as r h, List.cons_append]

/-- A string of ASCII alphanumerics cannot start with a prefix holding a
non-alphanumeric character (such as a URI scheme with `:` and `/`). -/
theorem jsStartsWith_false_of_alnum (c pre : String)
    (hc : ∀ ch ∈ c.data, ch.isAlphanum = true)
    (hpre : (pre.data.any (fun ch => !ch.isAlphanum)) = true) :
    jsStartsWith c pre = false := by
  cases hs : stripLit? pre.data c.data with
  | none => simp [jsStartsWith, hs]
  | some r =>
      exfalso
      obtain ⟨ch, hmem, hna⟩ := List.any_eq_true.mp hpre
      have hdata := stripLit?_eq_some pre.data c.data r hs
      have hchc : ch ∈ c.data := by
        rw [hdata]
        exact List.mem_append_left _ hmem
      have := hc ch hchc
      simp [this] at hna

/-- Claim C8: reference normalization is form-independent — for a content
identifier `c` (nonempty, ASCII alphanumeric), resolving the raw
identifier, the `ipfs://` URI and the pinata gateway `https://…/ipfs/`
URL all normalize to the same canonical cid, issue the identical
`/api/ipfs/` lookup request and return the same result; in particular
`fetchFromIPFS (toIPFSUri c)` behaves identically to `fetchFromIPFS c`. -/
theorem C8_reference_normalization (env : String → FetchOutcome) (c : String)
    (h1 : c ≠ "") (h2 : ∀ ch ∈ c.data, ch.isAlphanum = true) :
    fetchFromIPFSRun env c = apiFetch env c ∧
    fetchFromIPFSRun env ("ipfs://" ++ c) = apiFetch env c ∧
    fetchFromIPFSRun env ("https://gateway.pinata.cloud/ipfs/" ++ c) =
      apiFetch env c ∧
    fetchFromIPFS env (toIPFSUri c) = fetchFromIPFS env c := by
  have hs1 : jsStartsWith c "ipfs://" = false :=
    jsStartsWith_false_of_alnum c "ipfs://" h2 (by decide)
  have hs2 : jsStartsWith c "https://" = false :=
    jsStartsWith_false_of_alnum c "https://" h2 (by decide)
  have hraw : fetchFromIPFSRun env c = apiFetch env c := by
    unfold fetchFromIPFSRun
    rw [if_neg h1, hs1, hs2, if_neg Bool.false_ne_true, if_neg Bool.false_ne_true]
  have hipfs : fetchFromIPFSRun env ("ipfs://" ++ c) = apiFetch env c := by
    have hne : ("ipfs://" ++ c) ≠ "" := by
      intro hcon
      have hd := congrArg String.data hcon
      exact List.noConfusion
        (hd : ('i' :: ("pfs://".data ++ c.data)) = ([] : List Char))
    unfold fetchFromIPFSRun
    rw [if_neg hne,
      show jsStartsWith ("ipfs://" ++ c) "ipfs://" = true from rfl, if_pos rfl,
      show jsReplaceFirst ("ipfs://" ++ c) "ipfs://" = c from rfl]
  have hgw : fetchFromIPFSRun env ("https://gateway.pinata.cloud/ipfs/" ++ c) =
      apiFetch env c := by
    have hne : ("https://gateway.pinata.cloud/ipfs/" ++ c) ≠ "" := by
      intro hcon
      have hd := congrArg String.data hcon
      exact List.noConfusion
        (hd : ('h' :: ("ttps://gateway.pinata.cloud/ipfs/".data ++ c.data)) =
          ([] : List Char))
    have ht : c.data.takeWhile Char.isAlphanum = c.data :=
      List.takeWhile_eq_self_iff.mpr h2
    have hnd : c.data ≠ [] := fun hl => h1 (congrArg String.mk hl : c = "")
    have hmatch : jsMatchIpfsCid ("https://gateway.pinata.cloud/ipfs/" ++ c) =
        some c := by
      unfold jsMatchIpfsCid
      rw [show ("https://gateway.pinata.cloud/ipfs/" ++ c).data =
          "https://gateway.pinata.cloud/ipfs/".data ++ c.data from rfl,
        show jsMatchIpfsCidList ("https://gateway.pinata.cloud/ipfs/".data ++ c.data) =
          if c.data.takeWhile Char.isAlphanum = [] then
            jsMatchIpfsCidList (['i', 'p', 'f', 's', '/'] ++ c.data)
          else some (c.data.takeWhile Char.isAlphanum) from rfl,
        ht, if_neg hnd]
      rfl
    unfold fetchFromIPFSRun
    rw [if_neg hne,
      show jsStartsWith ("https://gateway.pinata.cloud/ipfs/" ++ c) "ipfs://" = false
        from rfl,
      if_neg Bool.false_ne_true,
      show jsStartsWith ("https://gateway.pinata.cloud/ipfs/" ++ c) "https://" = true
        from rfl,
      if_pos rfl, hmatch]
  refine ⟨hraw, hipfs, hgw, ?_⟩
  unfold toIPFSUri
  rw [hs1, if_neg Bool.false_ne_true]
  unfold fetchFromIPFS
  rw [hipfs, hraw]

/-- Witness for C8: the `ipfs://`-wrapped form of a concrete cid resolves
exactly like the raw cid. -/
theorem C8_reference_normalization_witness :
    fetchFromIPFS (fun _ => FetchOutcome.threw) (toIPFSUri "QmAbC123") =
      fetchFromIPFS (fun _ => FetchOutcome.threw) "QmAbC123" :=
  (C8_reference_normalization (fun _ => FetchOutcome.threw) "QmAbC123"
    (by decide) (by decide)).2.2.2

end Poidh
